import Mathlib

/-!
Verification of the bridge service in src/bridge/main.py: a read-only
HTTP gateway exposing Chatwoot (PostgreSQL) and LibreChat (MongoDB)
data behind one API-key gate. Handlers are embedded as pure Lean
functions over explicit backend states; a connection log records the
observable connector effects of each call.
-/

namespace Bridge

/-- JSON values, as produced by jsonify and by the bson encoder. -/
inductive Json where
  | null : Json
  | bool (b : Bool) : Json
  | num (n : Int) : Json
  | str (s : String) : Json
  | arr (xs : List Json) : Json
  | obj (fields : List (String × Json)) : Json

/-- Escape a character for a JSON string literal (quote and backslash). -/
def jsonEscapeChar (c : Char) : String :=
  if c = '"' then "\\\"" else if c = '\\' then "\\\\" else String.singleton c

/-- Escape a string for embedding in JSON text. -/
def jsonEscape (s : String) : String :=
  String.join (s.toList.map jsonEscapeChar)

mutual

/-- Render a JSON value to text with the separators used by the Python
json module defaults (comma-space, colon-space). -/
def Json.render : Json → String
  | .null => "null"
  | .bool true => "true"
  | .bool false => "false"
  | .num n => toString n
  | .str s => "\"" ++ jsonEscape s ++ "\""
  | .arr xs => "[" ++ Json.renderArr xs ++ "]"
  | .obj fs => "\x7b" ++ Json.renderObj fs ++ "\x7d"

/-- Render array elements, comma-space separated. -/
def Json.renderArr : List Json → String
  | [] => ""
  | [x] => Json.render x
  | x :: y :: xs => Json.render x ++ ", " ++ Json.renderArr (y :: xs)

/-- Render object fields, comma-space separated. -/
def Json.renderObj : List (String × Json) → String
  | [] => ""
  | [kv] => "\"" ++ jsonEscape kv.1 ++ "\": " ++ Json.render kv.2
  | kv :: kw :: xs =>
      "\"" ++ jsonEscape kv.1 ++ "\": " ++ Json.render kv.2 ++ ", " ++
        Json.renderObj (kw :: xs)

end

/-- The keys of a JSON object (empty for non-objects). -/
def jsonKeys : Json → List String
  | .obj fs => fs.map Prod.fst
  | _ => []

/-- An HTTP response: a status code and a JSON body. -/
structure Response where
  status : Nat
  body : Json

/-- BSON scalar values as stored in the document store. The native
identifier (ObjectId) and date types are the two that are not directly
JSON-representable. -/
inductive BsonValue where
  | null : BsonValue
  | bool (b : Bool) : BsonValue
  | num (n : Int) : BsonValue
  | str (s : String) : BsonValue
  | oid (hex : String) : BsonValue
  | date (millis : Int) : BsonValue
deriving Repr, DecidableEq

/-- Modelled from the spec: the canonicalizing encoder of
bson.json_util (not part of src/), converting the backend-native
identifier type to a dollar-oid wrapper object around its hex string
and the native date type to a dollar-date wrapper around its integer
epoch-milliseconds value; plain scalars pass through. -/
def bson_to_json : BsonValue → Json
  | .null => .null
  | .bool b => .bool b
  | .num n => .num n
  | .str s => .str s
  | .oid hex => .obj [("$oid", .str hex)]
  | .date millis => .obj [("$date", .num millis)]

/-- A projected document: an ordered list of field name and BSON value. -/
abbrev BsonDoc := List (String × BsonValue)

/-- A projected document as a JSON object. -/
def bson_doc_to_json (d : BsonDoc) : Json :=
  .obj (d.map (fun kv => (kv.1, bson_to_json kv.2)))

/-- Modelled from the spec: bson.json_util dumps (not part of src/) —
the canonicalizing encoder applied to a list of documents, rendered as
a JSON text string. -/
def dumps (docs : List BsonDoc) : String :=
  Json.render (.arr (docs.map bson_doc_to_json))

/-- A row of the relational conversations table. The extra list models
further table columns outside the fixed surfaced subset; timestamps
are modelled as integer epoch values. -/
structure PgConversation where
  id : Int
  account_id : Int
  inbox_id : Int
  status : String
  created_at : Int
  updated_at : Int
  extra : List (String × String) := []
deriving Repr, DecidableEq

/-- A row of the relational messages table, with extra columns. -/
structure PgMessage where
  id : Int
  conversation_id : Int
  sender_type : String
  content : String
  created_at : Int
  message_type : Int
  extra : List (String × String) := []
deriving Repr, DecidableEq

/-- The relational store state. -/
structure PgDb where
  conversations : List PgConversation
  messages : List PgMessage

/-- A document of the conversations collection, with extra fields
outside the projected subset. -/
structure MongoConversation where
  oidHex : String
  title : String
  createdAt : Int
  updatedAt : Int
  extra : List (String × BsonValue) := []
deriving Repr, DecidableEq

/-- A document of the messages collection. -/
structure MongoMessage where
  oidHex : String
  conversationId : String
  content : String
  role : String
  createdAt : Int
  extra : List (String × BsonValue) := []
deriving Repr, DecidableEq

/-- A document of the users collection. -/
structure MongoUser where
  oidHex : String
  username : String
  email : String
  createdAt : Int
  extra : List (String × BsonValue) := []
deriving Repr, DecidableEq

/-- The document store state. -/
structure MongoDb where
  conversations : List MongoConversation
  messages : List MongoMessage
  users : List MongoUser

/-- Insert an element into a list sorted descending by key. -/
def insertDesc (key : α → Int) (a : α) : List α → List α
  | [] => [a]
  | b :: l => if key b ≤ key a then a :: b :: l else b :: insertDesc key a l

/-- Sort a list descending by key: the ORDER BY created_at DESC of the
SQL queries and the createdAt sort of the document queries. -/
def orderByDesc (key : α → Int) : List α → List α
  | [] => []
  | a :: l => insertDesc key a (orderByDesc key l)

/-- Result set of the conversations SQL query: the stored rows ordered
by creation time descending, with OFFSET then LIMIT applied. -/
def pg_listConversations (db : PgDb) (limit offset : Nat) : List PgConversation :=
  (((orderByDesc (fun c => c.created_at) db.conversations).drop offset).take limit)

/-- Result set of the messages SQL query: rows whose conversation_id
equals the given id, ordered by creation time descending, LIMIT applied. -/
def pg_listMessages (db : PgDb) (cid : Int) (limit : Nat) : List PgMessage :=
  ((orderByDesc (fun m => m.created_at)
      (db.messages.filter (fun m => m.conversation_id == cid))).take limit)

/-- Result set of the document conversations query: unfiltered, sorted
by createdAt descending, skip then limit. -/
def mongo_listConversations (db : MongoDb) (limit skip : Nat) : List MongoConversation :=
  (((orderByDesc (fun c => c.createdAt) db.conversations).drop skip).take limit)

/-- Result set of the document messages query: documents whose
conversationId field equals the given id as an opaque string, sorted by
createdAt descending, limit applied. -/
def mongo_listMessages (db : MongoDb) (cid : String) (limit : Nat) : List MongoMessage :=
  ((orderByDesc (fun m => m.createdAt)
      (db.messages.filter (fun m => m.conversationId == cid))).take limit)

/-- Result set of the document users query: every stored user, no
filter, no sort, no limit. -/
def mongo_listUsers (db : MongoDb) : List MongoUser :=
  db.users

/-- The SELECT projection of a conversation row as the dict built from
the cursor description, serialized by jsonify. -/
def pg_conversation_to_json (c : PgConversation) : Json :=
  .obj [("id", .num c.id), ("account_id", .num c.account_id),
        ("inbox_id", .num c.inbox_id), ("status", .str c.status),
        ("created_at", .num c.created_at), ("updated_at", .num c.updated_at)]

/-- The SELECT projection of a message row serialized by jsonify. -/
def pg_message_to_json (m : PgMessage) : Json :=
  .obj [("id", .num m.id), ("conversation_id", .num m.conversation_id),
        ("sender_type", .str m.sender_type), ("content", .str m.content),
        ("created_at", .num m.created_at), ("message_type", .num m.message_type)]

/-- The find projection of a conversation document: the four listed
fields, other fields dropped. -/
def project_conversation (d : MongoConversation) : BsonDoc :=
  [("_id", .oid d.oidHex), ("title", .str d.title),
   ("createdAt", .date d.createdAt), ("updatedAt", .date d.updatedAt)]

/-- The find projection of a message document. -/
def project_message (d : MongoMessage) : BsonDoc :=
  [("_id", .oid d.oidHex), ("content", .str d.content),
   ("role", .str d.role), ("createdAt", .date d.createdAt)]

/-- The find projection of a user document. -/
def project_user (d : MongoUser) : BsonDoc :=
  [("_id", .oid d.oidHex), ("username", .str d.username),
   ("email", .str d.email), ("createdAt", .date d.createdAt)]

/-- Numeric value of a list of decimal digit characters. -/
def digitsVal (l : List Char) : Nat :=
  l.foldl (fun n c => 10 * n + (c.toNat - 48)) 0

/-- Modelled from the spec: the int conversion that werkzeug applies
to a query argument (Python int of a string) — surrounding whitespace
stripped, an optional sign, then decimal digits; anything else fails.
Digit-group underscores are not modelled. -/
def python_int (s : String) : Option Int :=
  let t := ((s.toList.dropWhile Char.isWhitespace).reverse.dropWhile
    Char.isWhitespace).reverse
  match t with
  | [] => none
  | '-' :: rest =>
      if rest ≠ [] ∧ rest.all Char.isDigit then some (-(digitsVal rest : Int))
      else none
  | '+' :: rest =>
      if rest ≠ [] ∧ rest.all Char.isDigit then some ((digitsVal rest : Int))
      else none
  | l =>
      if l.all Char.isDigit then some ((digitsVal l : Int)) else none

/-- Modelled from the spec: request args get with a default and the
int type, as the routes call it — a missing argument or one whose int
conversion fails yields the default. -/
def args_get_int (args : List (String × String)) (name : String)
    (dflt : Int) : Int :=
  match args.lookup name with
  | none => dflt
  | some v => (python_int v).getD dflt

/-- Modelled from the spec: the routing-level integer path converter —
the relational messages route matches only when the id segment is a
nonempty run of decimal digits. -/
def flask_int_converter (s : String) : Option Nat :=
  if s ≠ "" ∧ s.toList.all Char.isDigit then some (digitsVal s.toList)
  else none

/-- Modelled from the spec: the routing-level default string path
converter — any nonempty segment without a slash matches and is passed
through unchanged. -/
def flask_string_converter (s : String) : Option String :=
  if s ≠ "" ∧ s.toList.all (fun c => c ≠ '/') then some s else none

/-- The SQL text the conversations route submits, a fixed literal. -/
def chatwoot_conversations_sql : String :=
  "\n            SELECT id, account_id, inbox_id, status, created_at, updated_at\n            FROM conversations\n            ORDER BY created_at DESC\n            LIMIT %s OFFSET %s\n            "

/-- The SQL text the messages route submits, a fixed literal. -/
def chatwoot_messages_sql : String :=
  "\n            SELECT id, conversation_id, sender_type, content, created_at, message_type\n            FROM messages\n            WHERE conversation_id = %s\n            ORDER BY created_at DESC\n            LIMIT %s\n            "

/-- The connection URI built by get_mongo_client: authenticated
against the admin auth source when both credentials are configured,
otherwise unauthenticated. -/
def mongo_uri (username password host port database : String) : String :=
  if username ≠ "" ∧ password ≠ "" then
    "mongodb://" ++ username ++ ":" ++ password ++ "@" ++ host ++ ":" ++
      port ++ "/" ++ database ++ "?authSource=admin"
  else
    "mongodb://" ++ host ++ ":" ++ port ++ "/" ++ database

/-- Observable connector effects of one handler call: how many times a
connection open was attempted, whether one was opened, whether a query
was submitted, whether the connection was closed before return, which
parameterized SQL statements were submitted, and which document filter
was used. -/
structure ConnLog where
  connect_attempts : Nat := 0
  opened : Bool := false
  queried : Bool := false
  closed : Bool := false
  executed_sql : List (String × List Int) := []
  mongo_filter : Option BsonDoc := none

/-- Behavior of the relational backend for one call: the connection
open raises, the query raises after the connection opened, or the call
succeeds against the given store state. -/
inductive PgBehavior where
  | connectFail (msg : String) : PgBehavior
  | execFail (msg : String) : PgBehavior
  | ok (db : PgDb) : PgBehavior

/-- Behavior of the document backend for one call. -/
inductive MongoBehavior where
  | connectFail (msg : String) : MongoBehavior
  | execFail (msg : String) : MongoBehavior
  | ok (db : MongoDb) : MongoBehavior

/-- The 500 response built by every except branch: the error text of
the caught exception under the error key. -/
def error_response (msg : String) : Response :=
  ⟨500, .obj [("error", .str msg)]⟩

/-- require_api_key: compare the X-API-Key header against the
configured secret; on mismatch or absence return the fixed 401
response, otherwise none. -/
def require_api_key (api_key : String) (header : Option String) :
    Option Response :=
  if header = some api_key then none
  else some ⟨401, .obj [("error", .str "Unauthorized - Invalid API key")]⟩

/-- The chatwoot conversations route: auth gate, parse limit and
offset with defaults 50 and 0, then connect, execute the fixed
parameterized SELECT, materialize, close, and wrap the rows under the
conversations key; any backend exception becomes a 500 error response
with the connection left as it was. -/
def get_chatwoot_conversations (api_key : String) (header : Option String)
    (args : List (String × String)) (pg : PgBehavior) : Response × ConnLog :=
  match require_api_key api_key header with
  | some resp => (resp, {})
  | none =>
    let limit := args_get_int args "limit" 50
    let offset := args_get_int args "offset" 0
    match pg with
    | .connectFail msg => (error_response msg, { connect_attempts := 1 })
    | .execFail msg =>
        (error_response msg,
         { connect_attempts := 1, opened := true, queried := true,
           executed_sql := [(chatwoot_conversations_sql, [limit, offset])] })
    | .ok db =>
        let results := (pg_listConversations db limit.toNat offset.toNat).map
          pg_conversation_to_json
        (⟨200, .obj [("conversations", .arr results)]⟩,
         { connect_attempts := 1, opened := true, queried := true,
           closed := true,
           executed_sql := [(chatwoot_conversations_sql, [limit, offset])] })

/-- The chatwoot messages route: auth gate, parse limit with default
100, then execute the fixed parameterized SELECT filtered to the
integer conversation id. -/
def get_chatwoot_messages (api_key : String) (header : Option String)
    (conversation_id : Int) (args : List (String × String))
    (pg : PgBehavior) : Response × ConnLog :=
  match require_api_key api_key header with
  | some resp => (resp, {})
  | none =>
    let limit := args_get_int args "limit" 100
    match pg with
    | .connectFail msg => (error_response msg, { connect_attempts := 1 })
    | .execFail msg =>
        (error_response msg,
         { connect_attempts := 1, opened := true, queried := true,
           executed_sql := [(chatwoot_messages_sql, [conversation_id, limit])] })
    | .ok db =>
        let results := (pg_listMessages db conversation_id limit.toNat).map
          pg_message_to_json
        (⟨200, .obj [("messages", .arr results)]⟩,
         { connect_attempts := 1, opened := true, queried := true,
           closed := true,
           executed_sql := [(chatwoot_messages_sql, [conversation_id, limit])] })

/-- The librechat conversations route: auth gate, parse limit and skip
with defaults 50 and 0, query the conversations collection, close the
client, and embed the dumps string under the conversations key. -/
def get_librechat_conversations (api_key : String) (header : Option String)
    (args : List (String × String)) (mongo : MongoBehavior) :
    Response × ConnLog :=
  match require_api_key api_key header with
  | some resp => (resp, {})
  | none =>
    let limit := args_get_int args "limit" 50
    let skip := args_get_int args "skip" 0
    match mongo with
    | .connectFail msg => (error_response msg, { connect_attempts := 1 })
    | .execFail msg =>
        (error_response msg,
         { connect_attempts := 1, opened := true, queried := true,
           mongo_filter := some [] })
    | .ok db =>
        let docs := (mongo_listConversations db limit.toNat skip.toNat).map
          project_conversation
        (⟨200, .obj [("conversations", .str (dumps docs))]⟩,
         { connect_attempts := 1, opened := true, queried := true,
           closed := true, mongo_filter := some [] })

/-- The librechat messages route: auth gate, parse limit with default
100, query the messages collection filtered on conversationId equal to
the raw string id, and embed the dumps string under the messages key. -/
def get_librechat_messages (api_key : String) (header : Option String)
    (conversation_id : String) (args : List (String × String))
    (mongo : MongoBehavior) : Response × ConnLog :=
  match require_api_key api_key header with
  | some resp => (resp, {})
  | none =>
    let limit := args_get_int args "limit" 100
    match mongo with
    | .connectFail msg => (error_response msg, { connect_attempts := 1 })
    | .execFail msg =>
        (error_response msg,
         { connect_attempts := 1, opened := true, queried := true,
           mongo_filter := some [("conversationId", .str conversation_id)] })
    | .ok db =>
        let docs := (mongo_listMessages db conversation_id limit.toNat).map
          project_message
        (⟨200, .obj [("messages", .str (dumps docs))]⟩,
         { connect_attempts := 1, opened := true, queried := true,
           closed := true,
           mongo_filter := some [("conversationId", .str conversation_id)] })

/-- The librechat users route: auth gate, then an unfiltered unbounded
query over the users collection, embedded as a dumps string under the
users key. -/
def get_librechat_users (api_key : String) (header : Option String)
    (mongo : MongoBehavior) : Response × ConnLog :=
  match require_api_key api_key header with
  | some resp => (resp, {})
  | none =>
    match mongo with
    | .connectFail msg => (error_response msg, { connect_attempts := 1 })
    | .execFail msg =>
        (error_response msg,
         { connect_attempts := 1, opened := true, queried := true,
           mongo_filter := some [] })
    | .ok db =>
        let docs := (mongo_listUsers db).map project_user
        (⟨200, .obj [("users", .str (dumps docs))]⟩,
         { connect_attempts := 1, opened := true, queried := true,
           closed := true, mongo_filter := some [] })

/-- The five protected routes, with their bound path parameters. -/
inductive ProtectedRoute where
  | chatwootConversations : ProtectedRoute
  | chatwootMessages (conversation_id : Int) : ProtectedRoute
  | librechatConversations : ProtectedRoute
  | librechatMessages (conversation_id : String) : ProtectedRoute
  | librechatUsers : ProtectedRoute
deriving Repr, DecidableEq

/-- Dispatch a protected route to its handler. -/
def dispatch (api_key : String) (header : Option String)
    (args : List (String × String)) (pg : PgBehavior)
    (mongo : MongoBehavior) : ProtectedRoute → Response × ConnLog
  | .chatwootConversations => get_chatwoot_conversations api_key header args pg
  | .chatwootMessages cid => get_chatwoot_messages api_key header cid args pg
  | .librechatConversations => get_librechat_conversations api_key header args mongo
  | .librechatMessages cid => get_librechat_messages api_key header cid args mongo
  | .librechatUsers => get_librechat_users api_key header mongo

/-- Modelled from the spec: URL matching of the relational messages
route — the id segment must satisfy the integer converter. -/
def match_chatwoot_messages (seg : String) : Option ProtectedRoute :=
  (flask_int_converter seg).map (fun n => .chatwootMessages (n : Int))

/-- Modelled from the spec: URL matching of the document messages
route — the id segment passes through the default string converter. -/
def match_librechat_messages (seg : String) : Option ProtectedRoute :=
  (flask_string_converter seg).map .librechatMessages

/-- The error text of a failing relational behavior, if any. -/
def pg_error : PgBehavior → Option String
  | .connectFail msg => some msg
  | .execFail msg => some msg
  | .ok _ => none

/-- The error text of a failing document behavior, if any. -/
def mongo_error : MongoBehavior → Option String
  | .connectFail msg => some msg
  | .execFail msg => some msg
  | .ok _ => none

/-- The error text of the backend a route touches, if that backend
fails on this call. -/
def backend_error_of (pg : PgBehavior) (mongo : MongoBehavior) :
    ProtectedRoute → Option String
  | .chatwootConversations => pg_error pg
  | .chatwootMessages _ => pg_error pg
  | .librechatConversations => mongo_error mongo
  | .librechatMessages _ => mongo_error mongo
  | .librechatUsers => mongo_error mongo

/-- Whether a relational behavior succeeds. -/
def pg_is_ok : PgBehavior → Bool
  | .ok _ => true
  | _ => false

/-- Whether a relational call gets as far as opening a connection:
yes unless the connection open itself raises. -/
def pg_gets_opened : PgBehavior → Bool
  | .connectFail _ => false
  | _ => true

/-- Whether a document behavior succeeds. -/
def mongo_is_ok : MongoBehavior → Bool
  | .ok _ => true
  | _ => false

/-- Whether a document call gets as far as constructing a client. -/
def mongo_gets_opened : MongoBehavior → Bool
  | .connectFail _ => false
  | _ => true

/-- Whether the backend call a route makes succeeds. -/
def route_call_ok (pg : PgBehavior) (mongo : MongoBehavior) :
    ProtectedRoute → Bool
  | .chatwootConversations => pg_is_ok pg
  | .chatwootMessages _ => pg_is_ok pg
  | .librechatConversations => mongo_is_ok mongo
  | .librechatMessages _ => mongo_is_ok mongo
  | .librechatUsers => mongo_is_ok mongo

/-- Whether the backend call a route makes opens a connection. -/
def route_call_opened (pg : PgBehavior) (mongo : MongoBehavior) :
    ProtectedRoute → Bool
  | .chatwootConversations => pg_gets_opened pg
  | .chatwootMessages _ => pg_gets_opened pg
  | .librechatConversations => mongo_gets_opened mongo
  | .librechatMessages _ => mongo_gets_opened mongo
  | .librechatUsers => mongo_gets_opened mongo

/-- One inbound request together with the backend behavior it meets. -/
structure BridgeRequest where
  route : ProtectedRoute
  header : Option String
  args : List (String × String)
  pg : PgBehavior
  mongo : MongoBehavior

/-- Serve a sequence of independent requests: the process holds no
mutable state beyond the immutable configuration, so each response is
the dispatch of its own request. -/
def run_bridge (api_key : String) : List BridgeRequest → List Response
  | [] => []
  | r :: rs =>
      (dispatch api_key r.header r.args r.pg r.mongo r.route).1 ::
        run_bridge api_key rs

/-- A sample relational conversation whose id and both timestamps are
the given value. -/
def demo_conversation (i : Int) : PgConversation :=
  { id := i, account_id := 1, inbox_id := 1, status := "open",
    created_at := i, updated_at := i }

/-- A relational store holding five conversations created at times one
through five. -/
def demo_pg_db : PgDb :=
  ⟨[demo_conversation 1, demo_conversation 2, demo_conversation 3,
    demo_conversation 4, demo_conversation 5], []⟩

/-- An empty relational store. -/
def empty_pg_db : PgDb := ⟨[], []⟩

/-- An empty document store. -/
def empty_mongo_db : MongoDb := ⟨[], [], []⟩

theorem mem_insertDesc (key : α → Int) (a x : α) (l : List α) :
    x ∈ insertDesc key a l ↔ x = a ∨ x ∈ l := by
  induction l with
  | nil => simp [insertDesc]
  | cons b t ih =>
    by_cases h : key b ≤ key a
    · simp [insertDesc, h]
    · simp only [insertDesc, if_neg h, List.mem_cons, ih]
      tauto

theorem pairwise_insertDesc (key : α → Int) (a : α) (l : List α)
    (hl : l.Pairwise (fun x y => key y ≤ key x)) :
    (insertDesc key a l).Pairwise (fun x y => key y ≤ key x) := by
  induction l with
  | nil => simp [insertDesc]
  | cons b t ih =>
    rcases List.pairwise_cons.mp hl with ⟨hb, ht⟩
    by_cases h : key b ≤ key a
    · rw [insertDesc, if_pos h]
      refine List.pairwise_cons.mpr ⟨?_, hl⟩
      intro y hy
      rcases List.mem_cons.mp hy with rfl | hy
      · exact h
      · exact le_trans (hb y hy) h
    · rw [insertDesc, if_neg h]
      refine List.pairwise_cons.mpr ⟨?_, ih ht⟩
      intro y hy
      rcases (mem_insertDesc key a y t).mp hy with rfl | hy
      · exact le_of_not_le h
      · exact hb y hy

theorem pairwise_orderByDesc (key : α → Int) (l : List α) :
    (orderByDesc key l).Pairwise (fun x y => key y ≤ key x) := by
  induction l with
  | nil => simp [orderByDesc]
  | cons a t ih => exact pairwise_insertDesc key a _ ih

theorem mem_orderByDesc (key : α → Int) (x : α) (l : List α) :
    x ∈ orderByDesc key l ↔ x ∈ l := by
  induction l with
  | nil => simp [orderByDesc]
  | cons a t ih =>
    rw [orderByDesc, mem_insertDesc, ih, List.mem_cons]

theorem pairwise_take_drop (key : α → Int) (l : List α) (n m : Nat)
    (hl : l.Pairwise (fun x y => key y ≤ key x)) :
    ((l.drop m).take n).Pairwise (fun x y => key y ≤ key x) :=
  List.Pairwise.sublist
    ((List.take_sublist n (l.drop m)).trans (List.drop_sublist m l)) hl

theorem length_take_le (l : List α) (n : Nat) : (l.take n).length ≤ n := by
  simp [List.length_take]

theorem dumps_nil : dumps [] = "[]" := by
  simp [dumps, Json.render, Json.renderArr]


/-- C1: a request to any protected route whose X-API-Key header is
absent or differs from the configured secret returns status 401 with
the fixed unauthorized body, and no backend connection attempt, open,
query, or SQL submission happens for that request. -/
theorem C1_unauthorized_blocks_backend (api_key : String)
    (header : Option String) (args : List (String × String))
    (pg : PgBehavior) (mongo : MongoBehavior) (r : ProtectedRoute)
    (h : header ≠ some api_key) :
    dispatch api_key header args pg mongo r =
      (⟨401, .obj [("error", .str "Unauthorized - Invalid API key")]⟩,
       { connect_attempts := 0, opened := false, queried := false,
         closed := false, executed_sql := [], mongo_filter := none }) := by
  cases r <;>
    simp [dispatch, get_chatwoot_conversations, get_chatwoot_messages,
      get_librechat_conversations, get_librechat_messages,
      get_librechat_users, require_api_key, h]

/-- C1 witness: a concrete unauthorized request. -/
theorem C1_unauthorized_blocks_backend_witness :
    dispatch "secret" none [] (.ok ⟨[], []⟩) (.ok ⟨[], [], []⟩)
        .chatwootConversations =
      (⟨401, .obj [("error", .str "Unauthorized - Invalid API key")]⟩,
       { connect_attempts := 0, opened := false, queried := false,
         closed := false, executed_sql := [], mongo_filter := none }) :=
  C1_unauthorized_blocks_backend "secret" none [] _ _ _ (by decide)

/-- C2 counterexample: an authorized call on which the backend query
raises after the connection was opened returns with the connection
still open — the claim that the connection is closed before return on
every call, success or failure alike, is false here. -/
theorem C2_counterexample :
    (get_chatwoot_conversations "k" (some "k") []
        (.execFail "server closed the connection unexpectedly")).2.opened = true
    ∧ (get_chatwoot_conversations "k" (some "k") []
        (.execFail "server closed the connection unexpectedly")).2.closed
        = false := by
  exact ⟨rfl, rfl⟩

/-- C2 amended: on an authorized request, the backend connection is
closed before the operation returns exactly when the backend call
succeeds; when the call fails after a connection was opened, the
handler returns without closing it. -/
theorem C2_connection_closed_iff_success (api_key : String)
    (header : Option String) (args : List (String × String))
    (pg : PgBehavior) (mongo : MongoBehavior) (r : ProtectedRoute)
    (h : header = some api_key) :
    (dispatch api_key header args pg mongo r).2.closed =
      route_call_ok pg mongo r
    ∧ (dispatch api_key header args pg mongo r).2.opened =
      route_call_opened pg mongo r := by
  subst h
  cases r <;> cases pg <;> cases mongo <;>
    simp [dispatch, get_chatwoot_conversations, get_chatwoot_messages,
      get_librechat_conversations, get_librechat_messages,
      get_librechat_users, require_api_key, route_call_ok, route_call_opened,
      pg_is_ok, pg_gets_opened, mongo_is_ok, mongo_gets_opened]

/-- C2 witness: the amended statement at a concrete successful call. -/
theorem C2_connection_closed_iff_success_witness :
    (dispatch "k" (some "k") [] (.ok ⟨[], []⟩) (.ok ⟨[], [], []⟩)
        .chatwootConversations).2.closed =
      route_call_ok (.ok ⟨[], []⟩) (.ok ⟨[], [], []⟩) .chatwootConversations
    ∧ (dispatch "k" (some "k") [] (.ok ⟨[], []⟩) (.ok ⟨[], [], []⟩)
        .chatwootConversations).2.opened =
      route_call_opened (.ok ⟨[], []⟩) (.ok ⟨[], [], []⟩)
        .chatwootConversations :=
  C2_connection_closed_iff_success "k" (some "k") [] _ _ _ rfl


/-- C3: for valid limit and offset or skip values, both conversation
listings return at most limit records ordered by creation time
descending; the handler wraps exactly that result set, and with limit
two over a store of five conversations it returns exactly the two most
recently created. -/
theorem C3_listing_bounded_and_sorted :
    (∀ (db : PgDb) (limit offset : Nat),
        (pg_listConversations db limit offset).length ≤ limit
        ∧ (pg_listConversations db limit offset).Pairwise
            (fun a b => b.created_at ≤ a.created_at))
    ∧ (∀ (db : MongoDb) (limit skip : Nat),
        (mongo_listConversations db limit skip).length ≤ limit
        ∧ (mongo_listConversations db limit skip).Pairwise
            (fun a b => b.createdAt ≤ a.createdAt))
    ∧ (∀ (api_key : String) (header : Option String)
          (args : List (String × String)) (db : PgDb),
        header = some api_key →
        (get_chatwoot_conversations api_key header args (.ok db)).1 =
          ⟨200, .obj [("conversations",
            .arr ((pg_listConversations db
              (args_get_int args "limit" 50).toNat
              (args_get_int args "offset" 0).toNat).map
                pg_conversation_to_json))]⟩)
    ∧ (get_chatwoot_conversations "k" (some "k") [("limit", "2")]
          (.ok demo_pg_db)).1 =
        ⟨200, .obj [("conversations", .arr
          [pg_conversation_to_json (demo_conversation 5),
           pg_conversation_to_json (demo_conversation 4)])]⟩ := by
  refine ⟨fun db limit offset => ⟨length_take_le _ _, ?_⟩,
    fun db limit skip => ⟨length_take_le _ _, ?_⟩, fun k h args db hh => ?_, ?_⟩
  · exact pairwise_take_drop _ _ _ _ (pairwise_orderByDesc _ _)
  · exact pairwise_take_drop _ _ _ _ (pairwise_orderByDesc _ _)
  · subst hh
    simp [get_chatwoot_conversations, require_api_key]
  · rfl

/-- C3 witness: the handler-level conjunct at a concrete authorized
request over an empty store. -/
theorem C3_listing_bounded_and_sorted_witness :
    (get_chatwoot_conversations "k" (some "k") [] (.ok empty_pg_db)).1 =
      ⟨200, .obj [("conversations",
        .arr ((pg_listConversations empty_pg_db
          (args_get_int [] "limit" 50).toNat
          (args_get_int [] "offset" 0).toNat).map
            pg_conversation_to_json))]⟩ :=
  C3_listing_bounded_and_sorted.2.2.1 "k" (some "k") [] empty_pg_db rfl

/-- C4: every successful document-backed operation passes its results
through the canonicalizing bson encoder — identifiers become dollar-oid
string wrappers and dates dollar-date wrappers — and embeds the encoded
list as a single string value under the resource key of the outer JSON
envelope. -/
theorem C4_document_results_string_embedded :
    (∀ (api_key : String) (header : Option String)
        (args : List (String × String)) (db : MongoDb),
        header = some api_key →
        (get_librechat_conversations api_key header args (.ok db)).1 =
          ⟨200, .obj [("conversations", .str (dumps
            ((mongo_listConversations db
              (args_get_int args "limit" 50).toNat
              (args_get_int args "skip" 0).toNat).map
                project_conversation)))]⟩)
    ∧ (∀ (api_key : String) (header : Option String) (cid : String)
        (args : List (String × String)) (db : MongoDb),
        header = some api_key →
        (get_librechat_messages api_key header cid args (.ok db)).1 =
          ⟨200, .obj [("messages", .str (dumps
            ((mongo_listMessages db cid
              (args_get_int args "limit" 100).toNat).map project_message)))]⟩)
    ∧ (∀ (api_key : String) (header : Option String) (db : MongoDb),
        header = some api_key →
        (get_librechat_users api_key header (.ok db)).1 =
          ⟨200, .obj [("users", .str (dumps
            ((mongo_listUsers db).map project_user)))]⟩)
    ∧ (∀ hex, bson_to_json (.oid hex) = .obj [("$oid", .str hex)])
    ∧ (∀ millis, bson_to_json (.date millis) = .obj [("$date", .num millis)]) := by
  refine ⟨fun k h args db hh => ?_, fun k h cid args db hh => ?_,
    fun k h db hh => ?_, fun hex => rfl, fun millis => rfl⟩
  · subst hh; simp [get_librechat_conversations, require_api_key]
  · subst hh; simp [get_librechat_messages, require_api_key]
  · subst hh; simp [get_librechat_users, require_api_key]

/-- C4 witness: a concrete authorized document listing over an empty
store. -/
theorem C4_document_results_string_embedded_witness :
    (get_librechat_users "k" (some "k") (.ok empty_mongo_db)).1 =
      ⟨200, .obj [("users", .str (dumps
        ((mongo_listUsers empty_mongo_db).map project_user)))]⟩ :=
  C4_document_results_string_embedded.2.2.1 "k" (some "k") empty_mongo_db rfl


/-- C5: when the backend a route touches raises any error during an
authorized call, the route returns status 500 with the error text
under the error key, the error never escapes the handler, at most one
connection attempt is made (no retry), and the responses to subsequent
requests are exactly what they would be on their own. -/
theorem C5_backend_error_becomes_500 (api_key : String) (r : BridgeRequest)
    (msg : String) (hh : r.header = some api_key)
    (he : backend_error_of r.pg r.mongo r.route = some msg)
    (hm : msg ≠ "") :
    (dispatch api_key r.header r.args r.pg r.mongo r.route).1 =
      error_response msg
    ∧ (dispatch api_key r.header r.args r.pg r.mongo r.route).1.status = 500
    ∧ (dispatch api_key r.header r.args r.pg r.mongo r.route).1.body =
        .obj [("error", .str msg)]
    ∧ msg ≠ ""
    ∧ (dispatch api_key r.header r.args r.pg r.mongo r.route).2.connect_attempts ≤ 1
    ∧ ∀ rs, run_bridge api_key (r :: rs) =
        (dispatch api_key r.header r.args r.pg r.mongo r.route).1 ::
          run_bridge api_key rs := by
  obtain ⟨route, header, args, pg, mongo⟩ := r
  simp only at hh he ⊢
  subst hh
  cases route <;> cases pg <;> cases mongo <;>
    simp_all [dispatch, get_chatwoot_conversations, get_chatwoot_messages,
      get_librechat_conversations, get_librechat_messages,
      get_librechat_users, require_api_key, backend_error_of, pg_error,
      mongo_error, error_response, run_bridge]

/-- C5 witness: a concrete authorized request meeting a failing
relational backend. -/
theorem C5_backend_error_becomes_500_witness :
    (dispatch "k" (some "k") [] (.connectFail "connection refused")
        (.ok ⟨[], [], []⟩) .chatwootConversations).1 =
      error_response "connection refused"
    ∧ (dispatch "k" (some "k") [] (.connectFail "connection refused")
        (.ok ⟨[], [], []⟩) .chatwootConversations).2.connect_attempts ≤ 1 :=
  ⟨(C5_backend_error_becomes_500 "k"
      ⟨.chatwootConversations, some "k", [], .connectFail "connection refused",
        .ok ⟨[], [], []⟩⟩ "connection refused" rfl rfl (by decide)).1,
   (C5_backend_error_becomes_500 "k"
      ⟨.chatwootConversations, some "k", [], .connectFail "connection refused",
        .ok ⟨[], [], []⟩⟩ "connection refused" rfl rfl (by decide)).2.2.2.2.1⟩

/-- C6: the relational messages operation returns exactly the six
enumerated message fields of the messages whose conversation id equals
the given id, ordered by creation time descending and bounded by the
limit argument with default 100; when no stored message matches, the
response is status 200 with an empty messages list. -/
theorem C6_relational_messages (api_key : String) (header : Option String)
    (cid : Int) (args : List (String × String)) (db : PgDb)
    (hh : header = some api_key) :
    (get_chatwoot_messages api_key header cid args (.ok db)).1 =
      ⟨200, .obj [("messages", .arr ((pg_listMessages db cid
        (args_get_int args "limit" 100).toNat).map pg_message_to_json))]⟩
    ∧ (∀ limit : Nat, (pg_listMessages db cid limit).length ≤ limit
        ∧ (pg_listMessages db cid limit).Pairwise
            (fun a b => b.created_at ≤ a.created_at)
        ∧ ∀ m ∈ pg_listMessages db cid limit, m.conversation_id = cid)
    ∧ (∀ (limit : Nat), ∀ j ∈ (pg_listMessages db cid limit).map
          pg_message_to_json,
        jsonKeys j = ["id", "conversation_id", "sender_type", "content",
          "created_at", "message_type"])
    ∧ ((∀ m ∈ db.messages, m.conversation_id ≠ cid) →
        (get_chatwoot_messages api_key header cid args (.ok db)).1 =
          ⟨200, .obj [("messages", .arr [])]⟩) := by
  subst hh
  refine ⟨?_, fun limit => ⟨length_take_le _ _, ?_, fun m hm => ?_⟩,
    fun limit j hj => ?_, fun hnone => ?_⟩
  · simp [get_chatwoot_messages, require_api_key]
  · exact List.Pairwise.sublist (List.take_sublist _ _)
      (pairwise_orderByDesc _ _)
  · have h1 : m ∈ orderByDesc (fun m => m.created_at)
        (db.messages.filter (fun m => m.conversation_id == cid)) :=
      (List.take_sublist _ _).subset hm
    have h2 := (mem_orderByDesc _ _ _).mp h1
    have h3 := (List.mem_filter.mp h2).2
    exact beq_iff_eq.mp h3
  · rcases List.mem_map.mp hj with ⟨m, hm, rfl⟩
    rfl
  · have hf : db.messages.filter (fun m => m.conversation_id == cid) = [] :=
      List.filter_eq_nil_iff.mpr (fun m hm => by
        simp only [beq_iff_eq]
        exact fun hc => hnone m hm hc)
    simp [get_chatwoot_messages, require_api_key, pg_listMessages, hf,
      orderByDesc]

/-- C6 witness: a request for a conversation id matching no stored
message returns status 200 and an empty list. -/
theorem C6_relational_messages_witness :
    (get_chatwoot_messages "k" (some "k") 9999 [] (.ok demo_pg_db)).1 =
      ⟨200, .obj [("messages", .arr [])]⟩ :=
  (C6_relational_messages "k" (some "k") 9999 [] demo_pg_db rfl).2.2.2
    (by intro m hm; simp [demo_pg_db] at hm)


/-- C7: every SQL statement a relational handler submits has the fixed
literal text of its route with the caller values passed only in the
parameter tuple; the submitted text is identical across any two calls. -/
theorem C7_sql_text_constant :
    (∀ (api_key : String) (header : Option String)
        (args : List (String × String)) (pg : PgBehavior) q,
        q ∈ (get_chatwoot_conversations api_key header args pg).2.executed_sql →
        q = (chatwoot_conversations_sql,
          [args_get_int args "limit" 50, args_get_int args "offset" 0]))
    ∧ (∀ (api_key : String) (header : Option String) (cid : Int)
        (args : List (String × String)) (pg : PgBehavior) q,
        q ∈ (get_chatwoot_messages api_key header cid args pg).2.executed_sql →
        q = (chatwoot_messages_sql, [cid, args_get_int args "limit" 100]))
    ∧ (∀ a1 h1 g1 p1 a2 h2 g2 p2 q1 q2,
        q1 ∈ (get_chatwoot_conversations a1 h1 g1 p1).2.executed_sql →
        q2 ∈ (get_chatwoot_conversations a2 h2 g2 p2).2.executed_sql →
        q1.1 = q2.1)
    ∧ (∀ a1 h1 c1 g1 p1 a2 h2 c2 g2 p2 q1 q2,
        q1 ∈ (get_chatwoot_messages a1 h1 c1 g1 p1).2.executed_sql →
        q2 ∈ (get_chatwoot_messages a2 h2 c2 g2 p2).2.executed_sql →
        q1.1 = q2.1) := by
  have hc : ∀ (api_key : String) (header : Option String)
      (args : List (String × String)) (pg : PgBehavior) q,
      q ∈ (get_chatwoot_conversations api_key header args pg).2.executed_sql →
      q = (chatwoot_conversations_sql,
        [args_get_int args "limit" 50, args_get_int args "offset" 0]) := by
    intro k h args pg q hq
    by_cases hh : h = some k <;> cases pg <;>
      simp_all [get_chatwoot_conversations, require_api_key]
  have hm : ∀ (api_key : String) (header : Option String) (cid : Int)
      (args : List (String × String)) (pg : PgBehavior) q,
      q ∈ (get_chatwoot_messages api_key header cid args pg).2.executed_sql →
      q = (chatwoot_messages_sql, [cid, args_get_int args "limit" 100]) := by
    intro k h cid args pg q hq
    by_cases hh : h = some k <;> cases pg <;>
      simp_all [get_chatwoot_messages, require_api_key]
  refine ⟨hc, hm, ?_, ?_⟩
  · intro a1 h1 g1 p1 a2 h2 g2 p2 q1 q2 hq1 hq2
    rw [hc a1 h1 g1 p1 q1 hq1, hc a2 h2 g2 p2 q2 hq2]
  · intro a1 h1 c1 g1 p1 a2 h2 c2 g2 p2 q1 q2 hq1 hq2
    rw [hm a1 h1 c1 g1 p1 q1 hq1, hm a2 h2 c2 g2 p2 q2 hq2]

set_option maxRecDepth 4000 in
/-- C7 witness: two concrete calls with different caller values submit
statements with the same text. -/
theorem C7_sql_text_constant_witness :
    ((chatwoot_conversations_sql,
        ([50, 0] : List Int)) : String × List Int).1 =
      ((chatwoot_conversations_sql, ([7, 3] : List Int)) :
        String × List Int).1 :=
  C7_sql_text_constant.2.2.1 "k" (some "k") [] (.ok ⟨[], []⟩)
    "k" (some "k") [("limit", "7"), ("offset", "3")] (.ok ⟨[], []⟩)
    (chatwoot_conversations_sql, [50, 0])
    (chatwoot_conversations_sql, [7, 3]) (by decide) (by decide)


/-- C8: the relational messages route only matches an all-digit id
segment, so a non-integer id is rejected at routing level, while the
document messages route accepts any nonempty slash-free segment and
passes it into the backend filter as an opaque string compared by
string equality. -/
theorem C8_route_id_typing :
    match_chatwoot_messages "abc" = none
    ∧ match_librechat_messages "abc" = some (.librechatMessages "abc")
    ∧ (∀ s : String, s ≠ "" → (∀ c ∈ s.toList, c ≠ '/') →
        match_librechat_messages s = some (.librechatMessages s))
    ∧ (∀ (s : String) (n : Nat), match_chatwoot_messages s = some
          (.chatwootMessages (n : Int)) →
        s ≠ "" ∧ ∀ c ∈ s.toList, c.isDigit)
    ∧ (∀ (api_key : String) (header : Option String) (cid : String)
        (args : List (String × String)) (db : MongoDb),
        header = some api_key →
        (get_librechat_messages api_key header cid args (.ok db)).2.mongo_filter =
          some [("conversationId", .str cid)]
        ∧ ∀ m ∈ mongo_listMessages db cid
            (args_get_int args "limit" 100).toNat,
          m.conversationId = cid) := by
  refine ⟨by decide, by decide, fun s hs hc => ?_, fun s n hm => ?_,
    fun k h cid args db hh => ⟨?_, fun m hm => ?_⟩⟩
  · rw [match_librechat_messages, flask_string_converter]
    split
    · rfl
    · rename_i hneg
      refine absurd ⟨hs, ?_⟩ hneg
      simp only [List.all_eq_true, decide_eq_true_eq]
      exact hc
  · rw [match_chatwoot_messages] at hm
    rcases Option.map_eq_some'.mp hm with ⟨v, hv, _⟩
    rw [flask_int_converter] at hv
    split at hv
    · rename_i hcond
      refine ⟨hcond.1, fun c hcmem => ?_⟩
      exact List.all_eq_true.mp hcond.2 c hcmem
    · exact absurd hv (by simp)
  · subst hh
    simp [get_librechat_messages, require_api_key]
  · have h1 : m ∈ orderByDesc (fun m => m.createdAt)
        (db.messages.filter (fun m => m.conversationId == cid)) :=
      (List.take_sublist _ _).subset hm
    have h2 := (mem_orderByDesc _ _ _).mp h1
    have h3 := (List.mem_filter.mp h2).2
    exact beq_iff_eq.mp h3

/-- C8 witness: the non-integer value rejected by the relational route
and accepted by the document route, and a concrete filter. -/
theorem C8_route_id_typing_witness :
    match_librechat_messages "abc" = some (.librechatMessages "abc")
    ∧ (get_librechat_messages "k" (some "k") "abc" []
        (.ok ⟨[], [], []⟩)).2.mongo_filter =
      some [("conversationId", .str "abc")] :=
  ⟨C8_route_id_typing.2.2.1 "abc" (by decide) (by decide),
   (C8_route_id_typing.2.2.2.2 "k" (some "k") "abc" [] ⟨[], [], []⟩ rfl).1⟩

/-- C9: the document users operation is unfiltered and unbounded —
every stored user is returned, projected to exactly the four
enumerated fields — and over a store with zero users the response is
status 200 with the users key holding the encoding of an empty list. -/
theorem C9_users_unfiltered_unbounded (api_key : String)
    (header : Option String) (db : MongoDb) (hh : header = some api_key) :
    (get_librechat_users api_key header (.ok db)).1 =
      ⟨200, .obj [("users", .str (dumps
        ((mongo_listUsers db).map project_user)))]⟩
    ∧ ((mongo_listUsers db).map project_user).length = db.users.length
    ∧ (∀ d ∈ (mongo_listUsers db).map project_user,
        d.map Prod.fst = ["_id", "username", "email", "createdAt"])
    ∧ (db.users = [] →
        (get_librechat_users api_key header (.ok db)).1 =
          ⟨200, .obj [("users", .str "[]")]⟩
        ∧ (get_librechat_users api_key header (.ok db)).1.status = 200) := by
  subst hh
  refine ⟨?_, by simp [mongo_listUsers], fun d hd => ?_, fun h0 => ?_⟩
  · simp [get_librechat_users, require_api_key]
  · rcases List.mem_map.mp hd with ⟨u, hu, rfl⟩
    rfl
  · constructor
    · simp [get_librechat_users, require_api_key, mongo_listUsers, h0,
        dumps_nil]
    · simp [get_librechat_users, require_api_key]

/-- C9 witness: the empty-store case at a concrete request. -/
theorem C9_users_unfiltered_unbounded_witness :
    (get_librechat_users "k" (some "k") (.ok empty_mongo_db)).1 =
      ⟨200, .obj [("users", .str "[]")]⟩ :=
  ((C9_users_unfiltered_unbounded "k" (some "k") empty_mongo_db rfl).2.2.2
    rfl).1

/-- C10: a limit, offset, or skip value that does not convert to an
integer is silently replaced by the documented default of its
parameter, and the handler behaves exactly as if the parameter had
been omitted. -/
theorem C10_bad_int_args_fall_back_to_default :
    (∀ (args : List (String × String)) (name : String) (dflt : Int) v,
        args.lookup name = some v → python_int v = none →
        args_get_int args name dflt = dflt)
    ∧ (∀ (api_key : String) (header : Option String) (v : String)
        (pg : PgBehavior), python_int v = none →
        get_chatwoot_conversations api_key header
            [("limit", v), ("offset", v)] pg =
          get_chatwoot_conversations api_key header [] pg)
    ∧ (∀ (api_key : String) (header : Option String) (cid : Int) (v : String)
        (pg : PgBehavior), python_int v = none →
        get_chatwoot_messages api_key header cid [("limit", v)] pg =
          get_chatwoot_messages api_key header cid [] pg)
    ∧ (∀ (api_key : String) (header : Option String) (v : String)
        (mongo : MongoBehavior), python_int v = none →
        get_librechat_conversations api_key header
            [("limit", v), ("skip", v)] mongo =
          get_librechat_conversations api_key header [] mongo)
    ∧ (∀ (api_key : String) (header : Option String) (cid : String)
        (v : String) (mongo : MongoBehavior), python_int v = none →
        get_librechat_messages api_key header cid [("limit", v)] mongo =
          get_librechat_messages api_key header cid [] mongo)
    ∧ args_get_int [] "limit" 50 = 50 ∧ args_get_int [] "limit" 100 = 100
    ∧ args_get_int [] "offset" 0 = 0 ∧ args_get_int [] "skip" 0 = 0 := by
  refine ⟨fun args name dflt v hl hp => ?_, fun k h v pg hp => ?_,
    fun k h cid v pg hp => ?_, fun k h v mongo hp => ?_,
    fun k h cid v mongo hp => ?_, rfl, rfl, rfl, rfl⟩
  · simp [args_get_int, hl, hp]
  · simp [get_chatwoot_conversations, args_get_int, List.lookup, hp]
  · simp [get_chatwoot_messages, args_get_int, List.lookup, hp]
  · simp [get_librechat_conversations, args_get_int, List.lookup, hp]
  · simp [get_librechat_messages, args_get_int, List.lookup, hp]

/-- C10 witness: the string abc does not convert, so the listing with
it behaves as with the parameter omitted. -/
theorem C10_bad_int_args_fall_back_to_default_witness :
    get_chatwoot_conversations "k" (some "k")
        [("limit", "abc"), ("offset", "abc")] (.ok ⟨[], []⟩) =
      get_chatwoot_conversations "k" (some "k") [] (.ok ⟨[], []⟩) :=
  C10_bad_int_args_fall_back_to_default.2.1 "k" (some "k") "abc"
    (.ok ⟨[], []⟩) (by decide)

end Bridge
